import Mathlib

/-!
A verification development for the virtual GICv3 interrupt controller of the
arm64 VMM (sys/arm64/vmm/io/vgic_v3.c and sys/arm64/vmm/io/vtimer.c).

The C code is shallowly embedded: machine integers become `Nat` (with the bit
operations written out where the code uses them), the per-vCPU interrupt state
becomes explicit records, and every C function used by the properties below is
translated to an executable Lean function of the same name.  Fatal conditions
(`panic`, a failed `KASSERT`) are modelled as a distinguished outcome.
-/

namespace VgicV3

/-! ## Generic helpers for C index loops

`for (i = start; i < end; i++) { if (P(i)) break; }` returns the first index in
`[start, fin)` satisfying `p`, and a counting loop counts the indices in
`[start, fin)` satisfying `p`.  Both recur on `fin - start`, exactly like the
C loop variable. -/

/-- Auxiliary recursion for `findFrom`: `fuel` bounds the number of probes. -/
def findFromAux (p : Nat → Bool) : Nat → Nat → Option Nat
  | 0, _ => none
  | fuel + 1, s => if p s then some s else findFromAux p fuel (s + 1)

/-- First index `i` with `start ≤ i < fin` and `p i = true`, if any. -/
def findFrom (p : Nat → Bool) (start fin : Nat) : Option Nat :=
  findFromAux p (fin - start) start

/-- Auxiliary recursion for `countFrom`. -/
def countFromAux (p : Nat → Bool) : Nat → Nat → Nat
  | 0, _ => 0
  | fuel + 1, s => (if p s then 1 else 0) + countFromAux p fuel (s + 1)

/-- Number of indices `i` with `start ≤ i < fin` and `p i = true`. -/
def countFrom (p : Nat → Bool) (start fin : Nat) : Nat :=
  countFromAux p (fin - start) start

theorem findFrom_of_not_lt (p : Nat → Bool) {start fin : Nat} (h : ¬ start < fin) :
    findFrom p start fin = none := by
  have h0 : fin - start = 0 := by omega
  rw [findFrom, h0, findFromAux]

theorem findFrom_of_pos (p : Nat → Bool) {start fin : Nat} (hlt : start < fin)
    (hp : p start = true) : findFrom p start fin = some start := by
  have h1 : fin - start = (fin - (start + 1)) + 1 := by omega
  rw [findFrom, h1, findFromAux, hp]
  rfl

theorem findFrom_of_neg (p : Nat → Bool) {start fin : Nat} (hlt : start < fin)
    (hp : p start = false) : findFrom p start fin = findFrom p (start + 1) fin := by
  have h1 : fin - start = (fin - (start + 1)) + 1 := by omega
  rw [findFrom, h1, findFromAux, hp, findFrom]
  rfl

theorem findFromAux_some (p : Nat → Bool) :
    ∀ fuel s i, findFromAux p fuel s = some i →
      s ≤ i ∧ i < s + fuel ∧ p i = true ∧ ∀ k, s ≤ k → k < i → p k = false := by
  intro fuel
  induction fuel with
  | zero => intro s i h; cases h
  | succ m ih =>
    intro s i h
    rw [findFromAux] at h
    by_cases hp : p s
    · rw [if_pos hp] at h
      cases h
      exact ⟨le_refl _, by omega, hp, fun k hk1 hk2 => absurd hk1 (by omega)⟩
    · rw [if_neg hp] at h
      obtain ⟨h1, h2, h3, h4⟩ := ih (s + 1) i h
      refine ⟨by omega, by omega, h3, fun k hk1 hk2 => ?_⟩
      rcases Nat.eq_or_lt_of_le hk1 with rfl | hk
      · simpa using hp
      · exact h4 k hk hk2

theorem findFrom_some (p : Nat → Bool) :
    ∀ start fin i, findFrom p start fin = some i →
      start ≤ i ∧ i < fin ∧ p i = true ∧ ∀ k, start ≤ k → k < i → p k = false := by
  intro start fin i h
  rw [findFrom] at h
  obtain ⟨h1, h2, h3, h4⟩ := findFromAux_some p _ _ _ h
  exact ⟨h1, by omega, h3, h4⟩

theorem findFromAux_none (p : Nat → Bool) :
    ∀ fuel s, findFromAux p fuel s = none →
      ∀ k, s ≤ k → k < s + fuel → p k = false := by
  intro fuel
  induction fuel with
  | zero => intro s _ k hk1 hk2; omega
  | succ m ih =>
    intro s h k hk1 hk2
    rw [findFromAux] at h
    by_cases hp : p s
    · rw [if_pos hp] at h; cases h
    · rw [if_neg hp] at h
      rcases Nat.eq_or_lt_of_le hk1 with rfl | hk
      · simpa using hp
      · exact ih (s + 1) h k hk (by omega)

theorem findFrom_none (p : Nat → Bool) :
    ∀ start fin, findFrom p start fin = none →
      ∀ k, start ≤ k → k < fin → p k = false := by
  intro start fin h k hk1 hk2
  rw [findFrom] at h
  exact findFromAux_none p _ _ h k hk1 (by omega)

/-- If the predicate fails on all of `[start, t)`, searching from `start` is
searching from `t`. -/
theorem findFrom_congr_start (p : Nat → Bool) :
    ∀ start t fin, start ≤ t → t ≤ fin →
      (∀ k, start ≤ k → k < t → p k = false) →
      findFrom p start fin = findFrom p t fin := by
  intro start
  have H : ∀ n t fin, ∀ s, t - s = n → s ≤ t → t ≤ fin →
      (∀ k, s ≤ k → k < t → p k = false) →
      findFrom p s fin = findFrom p t fin := by
    intro n
    induction n with
    | zero =>
      intro t fin s h1 h2 _ _
      have hst : s = t := by omega
      rw [hst]
    | succ m ih =>
      intro t fin s h1 h2 h3 h4
      have hst : s < t := by omega
      have hs : p s = false := h4 s (le_refl _) hst
      rw [findFrom_of_neg p (by omega) hs]
      exact ih t fin (s + 1) (by omega) (by omega) h3
        (fun k hk1 hk2 => h4 k (by omega) hk2)
  intro t fin h1 h2 h3
  exact H (t - start) t fin start rfl h1 h2 h3

theorem countFrom_of_not_lt (p : Nat → Bool) {start fin : Nat} (h : ¬ start < fin) :
    countFrom p start fin = 0 := by
  have h0 : fin - start = 0 := by omega
  rw [countFrom, h0, countFromAux]

theorem countFrom_succ (p : Nat → Bool) {start fin : Nat} (h : start < fin) :
    countFrom p start fin = (if p start then 1 else 0) + countFrom p (start + 1) fin := by
  have h1 : fin - start = (fin - (start + 1)) + 1 := by omega
  rw [countFrom, h1, countFromAux, countFrom]

theorem countFromAux_congr (p q : Nat → Bool) :
    ∀ fuel s, (∀ k, s ≤ k → k < s + fuel → p k = q k) →
      countFromAux p fuel s = countFromAux q fuel s := by
  intro fuel
  induction fuel with
  | zero => intro s _; rfl
  | succ m ih =>
    intro s h
    rw [countFromAux, countFromAux, h s (le_refl _) (by omega),
      ih (s + 1) (fun k hk1 hk2 => h k (by omega) (by omega))]

/-- Counting only looks at the predicate's values on `[start, fin)`. -/
theorem countFrom_congr (p q : Nat → Bool) :
    ∀ start fin, (∀ k, start ≤ k → k < fin → p k = q k) →
      countFrom p start fin = countFrom q start fin := by
  intro start fin h
  rw [countFrom, countFrom]
  exact countFromAux_congr p q _ _ (fun k hk1 hk2 => h k hk1 (by omega))

/-- If the predicate fails on all of `[start, t)`, counting from `start` is
counting from `t`. -/
theorem countFrom_congr_start (p : Nat → Bool) :
    ∀ start t fin, start ≤ t → t ≤ fin →
      (∀ k, start ≤ k → k < t → p k = false) →
      countFrom p start fin = countFrom p t fin := by
  intro start
  have H : ∀ n t fin, ∀ s, t - s = n → s ≤ t → t ≤ fin →
      (∀ k, s ≤ k → k < t → p k = false) →
      countFrom p s fin = countFrom p t fin := by
    intro n
    induction n with
    | zero =>
      intro t fin s h1 h2 _ _
      have hst : s = t := by omega
      rw [hst]
    | succ m ih =>
      intro t fin s h1 h2 h3 h4
      have hst : s < t := by omega
      have hs : p s = false := h4 s (le_refl _) hst
      rw [countFrom_succ p (by omega), hs]
      simpa using ih t fin (s + 1) (by omega) (by omega) h3
        (fun k hk1 hk2 => h4 k (by omega) hk2)
  intro t fin h1 h2 h3
  exact H (t - start) t fin start rfl h1 h2 h3

/-- A positive count yields a first witness index. -/
theorem findFrom_isSome_of_countFrom_pos (p : Nat → Bool) :
    ∀ start fin, 0 < countFrom p start fin → ∃ i, findFrom p start fin = some i := by
  have H : ∀ fuel s, 0 < countFromAux p fuel s → ∃ i, findFromAux p fuel s = some i := by
    intro fuel
    induction fuel with
    | zero => intro s h; rw [countFromAux] at h; omega
    | succ m ih =>
      intro s h
      rw [countFromAux] at h
      rw [findFromAux]
      by_cases hp : p s
      · exact ⟨s, by rw [if_pos hp]⟩
      · rw [if_neg hp]
        rw [if_neg hp] at h
        exact ih (s + 1) (by omega)
  intro start fin h
  exact H _ _ h

/-! ## Constants

Interrupt-ID ranges from the GIC architecture (arm/arm/gic_common.h, not under
src/): SGIs are IDs 0-15, PPIs 16-31, SPIs 32-1019. -/

def GIC_FIRST_SGI : Nat := 0
def GIC_LAST_SGI : Nat := 15
def GIC_FIRST_PPI : Nat := 16
def GIC_LAST_PPI : Nat := 31
def GIC_FIRST_SPI : Nat := 32
def GIC_LAST_SPI : Nat := 1019

/-- `#define IRQBUF_SIZE_MIN 32` -/
def IRQBUF_SIZE_MIN : Nat := 32
/-- `#define IRQBUF_SIZE_MAX (1 << 10)` -/
def IRQBUF_SIZE_MAX : Nat := 1 <<< 10
/-- `#define IRQ_SCHEDULED (GIC_LAST_SPI + 1)` -/
def IRQ_SCHEDULED : Nat := GIC_LAST_SPI + 1

/-! ## Data model -/

/-- `enum vgic_v3_irqtype`.  The source notes: "Order matters, a lower value
means a higher precedence".  `ord` is the C enumerator value. -/
inductive Irqtype where
  | maxprio   -- VGIC_IRQ_MAXPRIO
  | clk       -- VGIC_IRQ_CLK
  | virtio    -- VGIC_IRQ_VIRTIO
  | misc      -- VGIC_IRQ_MISC
  | invalid   -- VGIC_IRQ_INVALID
deriving DecidableEq, Repr

def Irqtype.ord : Irqtype → Nat
  | .maxprio => 0
  | .clk => 1
  | .virtio => 2
  | .misc => 3
  | .invalid => 4

/-- `struct vgic_v3_irq`: one buffered interrupt.  `enabled` is a `uint8_t`
used as a boolean. -/
structure VIrq where
  irq : Nat
  irqtype : Irqtype
  group : Nat
  enabled : Bool
  priority : Nat
deriving DecidableEq, Repr

/-- The 2-bit state field ICH_LR_EL2_STATE (bits 63:62) of a list register. -/
inductive LRState where
  | inactive        -- ICH_LR_EL2_STATE_INACTIVE
  | pending         -- ICH_LR_EL2_STATE_PENDING
  | active          -- ICH_LR_EL2_STATE_ACTIVE
  | pendingActive   -- ICH_LR_EL2_STATE_PENDING_ACTIVE
deriving DecidableEq, Repr

/-- One 64-bit list register ICH_LR_EL2, split into its disjoint bit fields:
vINTID (bits 31:0), priority (55:48), group (60) and state (63:62).  The C
manipulates these fields only through disjoint masks, so a record of the
fields is a faithful view of the word. -/
structure LR where
  vintid : Nat
  group : Nat
  prio : Nat
  state : LRState
deriving DecidableEq, Repr

/-- `#define lr_pending(lr)` -/
def lr_pending (lr : LR) : Bool := lr.state = LRState.pending
/-- `#define lr_inactive(lr)` -/
def lr_inactive (lr : LR) : Bool := lr.state = LRState.inactive
/-- `#define lr_active(lr)` -/
def lr_active (lr : LR) : Bool := lr.state = LRState.active
/-- `#define lr_pending_active(lr)` -/
def lr_pending_active (lr : LR) : Bool := lr.state = LRState.pendingActive
/-- `#define lr_not_active(lr) (!lr_active(lr) && !lr_pending_active(lr))` -/
def lr_not_active (lr : LR) : Bool := !(lr_active lr) && !(lr_pending_active lr)
/-- `#define lr_clear_irq(lr) ((lr) &= ~ICH_LR_EL2_STATE_MASK)`: clears only
the state bits. -/
def lr_clear_irq (lr : LR) : LR := { lr with state := LRState.inactive }

/-- `vip_to_lr`: build a pending list register from a buffered interrupt. -/
def vip_to_lr (vip : VIrq) : LR :=
  { vintid := vip.irq, group := vip.group, prio := vip.priority,
    state := LRState.pending }

/-- `struct vgic_v3_dist` (one per VM).  The three GICD_CTLR bits the code
reads are kept as booleans; the register arrays are maps from word index to
32-bit (or, for IROUTER, 64-bit) word value. -/
structure Dist where
  gicd_ctlr_g1 : Bool       -- GICD_CTLR_G1
  gicd_ctlr_g1a : Bool      -- GICD_CTLR_G1A
  gicd_ctlr_are_ns : Bool   -- GICD_CTLR_ARE_NS
  nirqs : Nat
  gicd_igroupr : Nat → Nat
  gicd_ipriorityr : Nat → Nat
  gicd_irouter : Nat → Nat
  gicd_ixenabler : Nat → Nat

/-- Modelled from the spec: the helper macro `aff_routing_en` (declared in
vgic_v3_reg.h, which is not under src/) tests the Distributor's
"affinity-routing enable" control flag (GICD_CTLR.ARE_NS), per §3/§4.1 of the
spec and per every use site in vgic_v3.c. -/
def aff_routing_en (d : Dist) : Bool := d.gicd_ctlr_are_ns

/-- `struct vgic_v3_redist` (one per vCPU). -/
structure Redist where
  gicr_typer : Nat          -- 64-bit; affinity lives in bits 63:32
  gicr_ctlr_dpg0 : Bool     -- GICR_CTLR_DPG0
  gicr_ctlr_dpg1ns : Bool   -- GICR_CTLR_DPG1NS
  gicr_igroupr0 : Nat
  gicr_ixenabler0 : Nat
  gicr_ipriorityr : Nat → Nat

/-- GICR_TYPER_AFF0(x): bits 39:32. -/
def GICR_TYPER_AFF0 (x : Nat) : Nat := (x >>> 32) % 256
/-- GICR_TYPER_AFF1(x): bits 47:40. -/
def GICR_TYPER_AFF1 (x : Nat) : Nat := (x >>> 40) % 256
/-- GICR_TYPER_AFF2(x): bits 55:48. -/
def GICR_TYPER_AFF2 (x : Nat) : Nat := (x >>> 48) % 256
/-- GICR_TYPER_AFF3(x): bits 63:56. -/
def GICR_TYPER_AFF3 (x : Nat) : Nat := (x >>> 56) % 256
/-- GICD_IROUTER_IRM: bit 31 of GICD_IROUTER selects 1-of-N routing. -/
def GICD_IROUTER_IRM : Nat := 1 <<< 31

/-- `struct vgic_v3_cpu_if`: the fields read or written by the functions
below.  The VMCR is kept as its three used fields (VENG0, VENG1 and the
priority-mask byte VPMR); the list-register array and the interrupt buffer
are lists whose lengths play the roles of `ich_lr_num` and `irqbuf_num`;
`irqbuf_size` is the allocated capacity. -/
structure CpuIf where
  ich_vmcr_veng0 : Bool
  ich_vmcr_veng1 : Bool
  ich_vmcr_vpmr : Nat
  ich_lr_el2 : List LR
  irqbuf : List VIrq
  irqbuf_size : Nat
deriving DecidableEq, Repr

/-- `struct hypctx`: the per-vCPU context.  (In C the Distributor is reached
through `hypctx->hyp`; here it is passed alongside.) -/
structure Hypctx where
  vgic_redist : Redist
  vgic_cpu_if : CpuIf

/-- Outcome of a fallible vGIC entry point: either the kernel halts (a failed
`KASSERT`/`panic`), or the call returns error code `e` leaving the state
`st`. -/
inductive VgicResult (α : Type) where
  | panic : VgicResult α
  | ret (e : Nat) (st : α) : VgicResult α
deriving DecidableEq, Repr

/-! ## Register query helpers (vgic_v3.c) -/

/-- `vgic_v3_get_int_group`.  The C computes `irq_mask = 1 << irq` on a
32-bit operand; on arm64 a 32-bit shift takes its amount modulo 32, hence
`irq % 32`. -/
def vgic_v3_get_int_group (irq : Nat) (hypctx : Hypctx) (d : Dist) : Nat :=
  let irq_mask := 1 <<< (irq % 32)
  let n := irq / 32
  if irq ≤ GIC_LAST_PPI then
    if hypctx.vgic_redist.gicr_igroupr0 &&& irq_mask ≠ 0 then 1 else 0
  else
    if d.gicd_igroupr n &&& irq_mask ≠ 0 then 1 else 0

/-- `vgic_v3_group_enabled`: Distributor-level group enable. -/
def vgic_v3_group_enabled (group : Nat) (d : Dist) : Bool :=
  if group = 1 ∧ ¬ d.gicd_ctlr_g1a then false
  else if group = 0 ∧ ¬ d.gicd_ctlr_g1 then false
  else true

/-- `vgic_v3_intid_enabled`. -/
def vgic_v3_intid_enabled (irq : Nat) (hypctx : Hypctx) (d : Dist) : Bool :=
  let irq_mask := 1 <<< (irq % 32)
  let n := irq / 32
  if irq ≤ GIC_LAST_PPI then
    ¬ (hypctx.vgic_redist.gicr_ixenabler0 &&& irq_mask = 0)
  else
    ¬ (d.gicd_ixenabler n &&& irq_mask = 0)

/-- `vgic_v3_get_priority`.  Note the source computes `off = n % 4` (a bit
offset of 0..3) rather than a byte offset; the model reproduces that
faithfully. -/
def vgic_v3_get_priority (irq : Nat) (hypctx : Hypctx) (d : Dist) : Nat :=
  let n := irq / 4
  let off := n % 4
  let mask := 0xff <<< off
  if aff_routing_en d ∧ n ≤ 7 then
    (hypctx.vgic_redist.gicr_ipriorityr n &&& mask) >>> off
  else
    (d.gicd_ipriorityr n &&& mask) >>> off

/-- `vgic_v3_int_target`: is this vCPU a valid target for `irq`? -/
def vgic_v3_int_target (irq : Nat) (hypctx : Hypctx) (d : Dist) : Bool :=
  let redist := hypctx.vgic_redist
  if irq ≤ GIC_LAST_PPI then true
  else if ¬ aff_routing_en d then true
  else
    let irq_mask := 1 <<< (irq % 32)
    let n := irq / 32
    let group : Nat :=
      if n = 0 then (if redist.gicr_igroupr0 &&& irq_mask ≠ 0 then 1 else 0)
      else (if d.gicd_igroupr n &&& irq_mask ≠ 0 then 1 else 0)
    let irouter := d.gicd_irouter irq
    if irouter &&& GICD_IROUTER_IRM ≠ 0 ∧ group = 0 then
      redist.gicr_ctlr_dpg0
    else if irouter &&& GICD_IROUTER_IRM ≠ 0 ∧ group = 1 then
      redist.gicr_ctlr_dpg1ns
    else
      -- Affinity in format for comparison with irouter
      let aff := GICR_TYPER_AFF0 redist.gicr_typer |||
          (GICR_TYPER_AFF1 redist.gicr_typer <<< 8) |||
          (GICR_TYPER_AFF2 redist.gicr_typer <<< 16) |||
          (GICR_TYPER_AFF3 redist.gicr_typer <<< 32)
      irouter &&& aff = aff

/-! ## Pending-interrupt buffer operations (vgic_v3.c) -/

/-- `vgic_v3_irqbuf_remove_nolock`: "Removes ALL instances of interrupt
'irq'".  The C compacts the array in place and shrinks `irqbuf_num`; the
surviving entries, in order, are exactly those whose ID differs from `irq`.
(The C's return value is ignored at every call site and is not modelled.) -/
def vgic_v3_irqbuf_remove_nolock (irq : Nat) (buf : List VIrq) : List VIrq :=
  buf.filter (fun v => v.irq != irq)

/-- `vgic_v3_irqbuf_add_nolock`, fused with the caller's write of the new
entry: the C grows the array (doubling, `NULL` above IRQBUF_SIZE_MAX),
increments `irqbuf_num` and hands back a pointer to the fresh slot, which
`vgic_v3_inject_irq` then fills with `vip`. -/
def vgic_v3_irqbuf_add_nolock (c : CpuIf) (vip : VIrq) : Option CpuIf :=
  if c.irqbuf.length = c.irqbuf_size then
    let new_size := c.irqbuf_size <<< 1
    if new_size > IRQBUF_SIZE_MAX then none
    else some { c with irqbuf_size := new_size, irqbuf := c.irqbuf ++ [vip] }
  else
    some { c with irqbuf := c.irqbuf ++ [vip] }

/-- `vgic_v3_inject_irq`.  The failed `KASSERT(irq > GIC_LAST_SGI)` (active
in an INVARIANTS kernel) is the `panic` outcome; the malformed check
returns 1 before any state is touched. -/
def vgic_v3_inject_irq (hypctx : Hypctx) (d : Dist) (irq : Nat)
    (irqtype : Irqtype) : VgicResult CpuIf :=
  if ¬ (irq > GIC_LAST_SGI) then VgicResult.panic
  else if irq ≥ d.nirqs ∨ irqtype.ord ≥ Irqtype.invalid.ord then
    VgicResult.ret 1 hypctx.vgic_cpu_if
  else
    let group := vgic_v3_get_int_group irq hypctx d
    let enabled := vgic_v3_group_enabled group d &&
        vgic_v3_intid_enabled irq hypctx d &&
        vgic_v3_int_target irq hypctx d
    let priority := vgic_v3_get_priority irq hypctx d
    match vgic_v3_irqbuf_add_nolock hypctx.vgic_cpu_if
        { irq := irq, irqtype := irqtype, group := group,
          enabled := enabled, priority := priority } with
    | none => VgicResult.ret 1 hypctx.vgic_cpu_if
    | some c => VgicResult.ret 0 c

/-- `vgic_v3_remove_irq`: reject an out-of-range ID, clear every matching
list register unless it is active/pending-active and `ignore_state` is
false, and drop every matching buffered entry. -/
def vgic_v3_remove_irq (hypctx : Hypctx) (d : Dist) (irq : Nat)
    (ignore_state : Bool) : VgicResult CpuIf :=
  let c := hypctx.vgic_cpu_if
  if irq ≥ d.nirqs then VgicResult.ret 1 c
  else
    VgicResult.ret 0 { c with
      ich_lr_el2 := c.ich_lr_el2.map (fun lr =>
        if lr.vintid = irq ∧ (lr_not_active lr ∨ ignore_state) then
          lr_clear_irq lr
        else lr),
      irqbuf := vgic_v3_irqbuf_remove_nolock irq c.irqbuf }

/-- `vgic_v3_irq_set_priority_vcpu`: update every matching buffered entry;
then, for the list registers, the C tests only `lr_pending(lr)` — it never
compares the register's vINTID with `irq` — and rewrites the priority field
of every pending register. -/
def vgic_v3_irq_set_priority_vcpu (irq : Nat) (priority : Nat) (c : CpuIf) : CpuIf :=
  { c with
    irqbuf := c.irqbuf.map (fun v =>
      if v.irq = irq then { v with priority := priority } else v),
    ich_lr_el2 := c.ich_lr_el2.map (fun lr =>
      if lr_pending lr then { lr with prio := priority } else lr) }

/-- `struct hyp`: the VM, holding the Distributor and the per-vCPU
contexts. -/
structure Hyp where
  vgic_dist : Dist
  ctx : List Hypctx

/-- `vgic_v3_irq_set_priority`: a private interrupt updates the owning vCPU;
for a shared interrupt the loop header is `for (i = 0; i < 1; i++)` (with the
comment "TODO: IRQ is SPI, update irqbuf for all VCPUs"), so only vCPU 0 is
updated. -/
def vgic_v3_irq_set_priority (irq : Nat) (priority : Nat) (hyp : Hyp)
    (vcpuid : Nat) : Hyp :=
  if irq ≤ GIC_LAST_PPI then
    { hyp with ctx := hyp.ctx.modify (fun hc =>
        { hc with vgic_cpu_if :=
            vgic_v3_irq_set_priority_vcpu irq priority hc.vgic_cpu_if }) vcpuid }
  else
    { hyp with ctx := hyp.ctx.modify (fun hc =>
        { hc with vgic_cpu_if :=
            vgic_v3_irq_set_priority_vcpu irq priority hc.vgic_cpu_if }) 0 }

/-! ## The list-register synchronizer (vgic_v3.c) -/

/-- One iteration of the `vgic_v3_highest_priority_pending` scan: keep the
running best entry unless `v` passes every filter and either beats it
(strictly greater priority value) or ties with a more urgent (lower
ordinal) irqtype. -/
def hpp_step (hypctx : Hypctx) (d : Dist) (vpmr : Nat) (best : Option VIrq)
    (v : VIrq) : Option VIrq :=
  if v.irq = IRQ_SCHEDULED then best
  else if ¬ vgic_v3_group_enabled (vgic_v3_get_int_group v.irq hypctx d) d then
    best
  else if ¬ vgic_v3_intid_enabled v.irq hypctx d then best
  else if ¬ vgic_v3_int_target v.irq hypctx d then best
  else if v.priority ≥ vpmr then best
  else
    match best with
    | none => some v
    | some m =>
      if v.priority > m.priority then some v
      else if v.priority = m.priority ∧ v.irqtype.ord < m.irqtype.ord then some v
      else best

/-- `vgic_v3_highest_priority_pending`: scan the buffer keeping the running
best entry (the C keeps its index `max_idx` and its priority
`max_priority`, which always equals that entry's priority field). -/
def vgic_v3_highest_priority_pending (c : CpuIf) (hypctx : Hypctx) (d : Dist) :
    Option VIrq :=
  let vpmr := c.ich_vmcr_vpmr
  c.irqbuf.foldl (hpp_step hypctx d vpmr) none

/-- The filter of `vgic_v3_irqbuf_next_enabled`, applied to one entry:
skip it unless its `enabled` snapshot is set and its current group (as read
from the Distributor/Redistributor) is enabled at VMCR level. -/
def vip_pass (hypctx : Hypctx) (d : Dist) (c : CpuIf) (v : VIrq) : Bool :=
  v.enabled &&
    !((vgic_v3_get_int_group v.irq hypctx d == 1) && !c.ich_vmcr_veng1) &&
    !((vgic_v3_get_int_group v.irq hypctx d == 0) && !c.ich_vmcr_veng0)

/-- The loop predicate of `vgic_v3_irqbuf_next_enabled` at index `i`. -/
def irqbuf_pass (irqbuf : List VIrq) (hypctx : Hypctx) (d : Dist) (c : CpuIf)
    (i : Nat) : Bool :=
  match irqbuf[i]? with
  | some v => vip_pass hypctx d c v
  | none => false

/-- `vgic_v3_irqbuf_next_enabled`: first index in `[start, fin)` holding an
entry that passes the enabled/VMCR filter (`-1`, here `none`, if none). -/
def vgic_v3_irqbuf_next_enabled (irqbuf : List VIrq) (start fin : Nat)
    (hypctx : Hypctx) (d : Dist) (c : CpuIf) : Option Nat :=
  findFrom (irqbuf_pass irqbuf hypctx d c) start fin

/-- The loop predicate of `vgic_v3_lr_next_inactive` at index `i`. -/
def lr_inactive_at (lrs : List LR) (i : Nat) : Bool :=
  match lrs[i]? with
  | some lr => lr_inactive lr
  | none => false

/-- `vgic_v3_lr_next_inactive`: first inactive list register in
`[start, fin)`. -/
def vgic_v3_lr_next_inactive (lrs : List LR) (start fin : Nat) : Option Nat :=
  findFrom (lr_inactive_at lrs) start fin

/-- The first scan of `vgic_v3_irqbuf_to_lr`: is the virtual timer interrupt
(vINTID 27, hard-coded in the source) resident in a non-inactive list
register? -/
def clk_in_lr (lrs : List LR) : Bool :=
  lrs.any (fun lr => lr.vintid == 27 && !(lr_inactive lr))

/-- The placement loop of `vgic_v3_irqbuf_to_lr`: find the next enabled
buffered entry and the next inactive register; skip (only advancing the
buffer cursor) a timer-clock entry while `clk_injected`; otherwise write the
entry into the register as pending and overwrite the buffered copy's ID with
IRQ_SCHEDULED. -/
def vgic_v3_irqbuf_to_lr_loop (hypctx : Hypctx) (d : Dist) (clk_injected : Bool)
    (c : CpuIf) (irqbuf_idx lr_idx : Nat) : CpuIf :=
  match hfind : vgic_v3_irqbuf_next_enabled c.irqbuf irqbuf_idx c.irqbuf.length
      hypctx d c with
  | none => c
  | some i =>
    match vgic_v3_lr_next_inactive c.ich_lr_el2 lr_idx c.ich_lr_el2.length with
    | none => c
    | some j =>
      match c.irqbuf[i]? with
      | none => c
      | some vip =>
        if vip.irqtype = Irqtype.clk ∧ clk_injected then
          -- Do not swamp guest with timer interrupts.
          vgic_v3_irqbuf_to_lr_loop hypctx d clk_injected c (i + 1) j
        else
          vgic_v3_irqbuf_to_lr_loop hypctx d clk_injected
            { c with
              ich_lr_el2 := c.ich_lr_el2.set j (vip_to_lr vip),
              irqbuf := c.irqbuf.set i { vip with irq := IRQ_SCHEDULED } }
            (i + 1) (j + 1)
termination_by c.irqbuf.length - irqbuf_idx
decreasing_by
  · have h := findFrom_some _ _ _ _ hfind
    omega
  · have h := findFrom_some _ _ _ _ hfind
    simp only [List.length_set]
    omega

/-- `vgic_v3_irqbuf_to_lr`: the fast-path body — run the placement loop, then
purge every entry just marked IRQ_SCHEDULED. -/
def vgic_v3_irqbuf_to_lr (hypctx : Hypctx) (d : Dist) (c : CpuIf) : CpuIf :=
  let clk_injected := clk_in_lr c.ich_lr_el2
  let c' := vgic_v3_irqbuf_to_lr_loop hypctx d clk_injected c 0 0
  { c' with irqbuf := vgic_v3_irqbuf_remove_nolock IRQ_SCHEDULED c'.irqbuf }

/-- `lr_free` as counted by `vgic_v3_sync_hwstate`'s loop over the list
registers. -/
def lr_free_count (c : CpuIf) : Nat :=
  countFrom (lr_inactive_at c.ich_lr_el2) 0 c.ich_lr_el2.length

/-- `vgic_v3_sync_hwstate`.  With an empty buffer it returns at once; if all
buffered interrupts fit in the inactive list registers it runs
`vgic_v3_irqbuf_to_lr`; otherwise ("RESHUFFLING! ... This is bad. This
shouldn't happen") it prints diagnostics and executes `panic("reshuffled")`
before any reshuffling is performed — the code after that panic is
unreachable.  The panic is the `none` outcome. -/
def vgic_v3_sync_hwstate (hypctx : Hypctx) (d : Dist) : Option CpuIf :=
  let c := hypctx.vgic_cpu_if
  if c.irqbuf.length = 0 then some c
  else if c.irqbuf.length ≤ lr_free_count c then
    some (vgic_v3_irqbuf_to_lr hypctx d c)
  else
    none

/-! ## Virtual timer (vtimer.c)

Bit layout of CNTP_CTL_EL0 per the ARMv8 architecture (armreg.h is not under
src/): ENABLE is bit 0, IMASK bit 1. -/

def CNTP_CTL_ENABLE : Nat := 1 <<< 0
def CNTP_CTL_IMASK : Nat := 1 <<< 1

/-- `struct vtimer_cpu`, with the `struct callout` abstracted to whether the
deferred injection callback is currently scheduled. -/
structure VtimerCpu where
  cntp_cval_el0 : Nat
  cntp_ctl_el0 : Nat
  callout_scheduled : Bool

/-- `#define vtimer_enabled(ctl) (!((ctl) & CNTP_CTL_IMASK) && ((ctl) & CNTP_CTL_ENABLE))` -/
def vtimer_enabled (ctl : Nat) : Bool :=
  (ctl &&& CNTP_CTL_IMASK = 0) && !(ctl &&& CNTP_CTL_ENABLE = 0)

/-- `vtimer_inject_irq`: inject the timer's interrupt with type
VGIC_IRQ_CLK. -/
def vtimer_inject_irq (hypctx : Hypctx) (d : Dist) (phys_ns_irq : Nat) :
    VgicResult CpuIf :=
  vgic_v3_inject_irq hypctx d phys_ns_irq Irqtype.clk

/-- `vtimer_schedule_irq`: with the compare value already in the past
(relative to the current counter `cntpct_el0`) inject at once, otherwise
schedule the deferred callback for the deadline. -/
def vtimer_schedule_irq (vt : VtimerCpu) (hypctx : Hypctx) (d : Dist)
    (phys_ns_irq : Nat) (cntpct_el0 : Nat) : VtimerCpu × VgicResult CpuIf :=
  if vt.cntp_cval_el0 < cntpct_el0 then
    (vt, vtimer_inject_irq hypctx d phys_ns_irq)
  else
    ({ vt with callout_scheduled := true },
     VgicResult.ret 0 hypctx.vgic_cpu_if)

/-- `vtimer_remove_irq`: `callout_drain` synchronously cancels or waits out
the deferred callback (modelled: the scheduled flag is cleared), then the
code calls `vgic_v3_remove_irq(hypctx, irq)`.  That call supplies no value
for the `ignore_state` parameter required by the function's declaration in
vgic_v3.h (`int vgic_v3_remove_irq(void *, uint32_t, bool)`), so the flag's
value is unspecified; it is taken here as the explicit input
`unspecified_ignore_state`. -/
def vtimer_remove_irq (unspecified_ignore_state : Bool) (hypctx : Hypctx)
    (d : Dist) (vt : VtimerCpu) (phys_ns_irq : Nat) :
    VtimerCpu × VgicResult CpuIf :=
  ({ vt with callout_scheduled := false },
   vgic_v3_remove_irq hypctx d phys_ns_irq unspecified_ignore_state)

/-- `vtimer_phys_ctl_write`: store the written control value, then re-arm on
a disabled→enabled transition and tear down on an enabled→disabled
transition.  (`unspecified_ignore_state` is threaded to `vtimer_remove_irq`,
see there.) -/
def vtimer_phys_ctl_write (unspecified_ignore_state : Bool) (hypctx : Hypctx)
    (d : Dist) (vt : VtimerCpu) (phys_ns_irq : Nat) (wval : Nat)
    (cntpct_el0 : Nat) : VtimerCpu × VgicResult CpuIf :=
  let ctl_el0 := vt.cntp_ctl_el0
  let timer_toggled_on := ¬ vtimer_enabled ctl_el0 ∧ vtimer_enabled wval
  let timer_toggled_off := vtimer_enabled ctl_el0 ∧ ¬ vtimer_enabled wval
  let vt' := { vt with cntp_ctl_el0 := wval }
  if timer_toggled_on then
    vtimer_schedule_irq vt' hypctx d phys_ns_irq cntpct_el0
  else if timer_toggled_off then
    vtimer_remove_irq unspecified_ignore_state hypctx d vt' phys_ns_irq
  else
    (vt', VgicResult.ret 0 hypctx.vgic_cpu_if)

/-! ## Specification-side definitions

These state, in terms the claims use, what the synchronizer and router are
supposed to produce; the theorems below compare them with the translated
code. -/

/-- An entry the fast path schedules this pass: it passes the enabled/VMCR
filter and is not a timer-clock entry blocked by the anti-starvation guard. -/
def vip_place (hypctx : Hypctx) (d : Dist) (c : CpuIf) (clk_injected : Bool)
    (v : VIrq) : Bool :=
  vip_pass hypctx d c v && !(v.irqtype == Irqtype.clk && clk_injected)

/-- Mark an entry with the sentinel ID if it is placed. -/
def markScheduled (pl : VIrq → Bool) (v : VIrq) : VIrq :=
  if pl v then { v with irq := IRQ_SCHEDULED } else v

/-- Place `vips`, in order, into successive inactive list registers (each
search starting after the previously claimed slot), as pending entries. -/
def placeIntoLRs : List LR → Nat → List VIrq → List LR
  | lrs, _, [] => lrs
  | lrs, lr_idx, v :: rest =>
    match vgic_v3_lr_next_inactive lrs lr_idx lrs.length with
    | none => lrs
    | some j => placeIntoLRs (lrs.set j (vip_to_lr v)) (j + 1) rest

/-- The vCPU's affinity identity, assembled from GICR_TYPER into
GICD_IROUTER format (Aff0..Aff2 in bits 23:0, Aff3 in bits 39:32), as the
route-check in `vgic_v3_int_target` assembles it. -/
def redist_affinity (redist : Redist) : Nat :=
  GICR_TYPER_AFF0 redist.gicr_typer |||
    (GICR_TYPER_AFF1 redist.gicr_typer <<< 8) |||
    (GICR_TYPER_AFF2 redist.gicr_typer <<< 16) |||
    (GICR_TYPER_AFF3 redist.gicr_typer <<< 32)

/-- The affinity fields of a routing descriptor: Aff0..Aff2 in bits 23:0 and
Aff3 in bits 39:32 of GICD_IROUTER. -/
def irouter_affinity (irouter : Nat) : Nat :=
  irouter &&& 0xff00ffffff

/-- "This vCPU participates in the interrupt's group": the participation
check the code performs under 1-of-N routing — the GICR_CTLR
processor-group bit for the interrupt's group. -/
def vcpu_participates (hypctx : Hypctx) (d : Dist) (irq : Nat) : Bool :=
  if vgic_v3_get_int_group irq hypctx d = 0 then
    hypctx.vgic_redist.gicr_ctlr_dpg0
  else
    hypctx.vgic_redist.gicr_ctlr_dpg1ns

/-- The routing query as claim C6 states it: private interrupts always
target their owner; every vCPU is a target when affinity routing is
disabled; under 1-of-N routing the vCPU must participate in the interrupt's
group; otherwise the vCPU's affinity identity must equal the routing
descriptor's affinity EXACTLY. -/
def int_target_claimed (irq : Nat) (hypctx : Hypctx) (d : Dist) : Bool :=
  if irq ≤ GIC_LAST_PPI then true
  else if ¬ aff_routing_en d then true
  else if (d.gicd_irouter irq) &&& GICD_IROUTER_IRM ≠ 0 then
    vcpu_participates hypctx d irq
  else
    redist_affinity hypctx.vgic_redist = irouter_affinity (d.gicd_irouter irq)

/-- The routing query with the last clause amended to what the code
computes: every set bit of the vCPU's affinity identity must also be set in
the routing descriptor (`(irouter & aff) == aff`), a mask-superset test
rather than an exact match. -/
def int_target_amended (irq : Nat) (hypctx : Hypctx) (d : Dist) : Bool :=
  if irq ≤ GIC_LAST_PPI then true
  else if ¬ aff_routing_en d then true
  else if (d.gicd_irouter irq) &&& GICD_IROUTER_IRM ≠ 0 then
    vcpu_participates hypctx d irq
  else
    (d.gicd_irouter irq) &&& redist_affinity hypctx.vgic_redist =
      redist_affinity hypctx.vgic_redist




/-! ## Unfolding lemmas for the placement loop -/

theorem irqbuf_pass_of_getElem (irqbuf : List VIrq) (hypctx : Hypctx) (d : Dist)
    (c : CpuIf) (i : Nat) (v : VIrq) (h : irqbuf[i]? = some v) :
    irqbuf_pass irqbuf hypctx d c i = vip_pass hypctx d c v := by
  simp [irqbuf_pass, h]

theorem irqbuf_to_lr_loop_eq_of_none (hypctx : Hypctx) (d : Dist) (clk : Bool)
    (c : CpuIf) (idx lidx : Nat)
    (h : vgic_v3_irqbuf_next_enabled c.irqbuf idx c.irqbuf.length hypctx d c = none) :
    vgic_v3_irqbuf_to_lr_loop hypctx d clk c idx lidx = c := by
  rw [vgic_v3_irqbuf_to_lr_loop]
  split
  · rfl
  · simp_all

theorem irqbuf_to_lr_loop_eq_of_skip (hypctx : Hypctx) (d : Dist) (clk : Bool)
    (c : CpuIf) (idx lidx : Nat) (i j : Nat) (vip : VIrq)
    (h1 : vgic_v3_irqbuf_next_enabled c.irqbuf idx c.irqbuf.length hypctx d c = some i)
    (h2 : vgic_v3_lr_next_inactive c.ich_lr_el2 lidx c.ich_lr_el2.length = some j)
    (h3 : c.irqbuf[i]? = some vip)
    (h4 : vip.irqtype = Irqtype.clk ∧ clk = true) :
    vgic_v3_irqbuf_to_lr_loop hypctx d clk c idx lidx =
      vgic_v3_irqbuf_to_lr_loop hypctx d clk c (i + 1) j := by
  rw [vgic_v3_irqbuf_to_lr_loop]
  split
  · simp_all
  · rename_i i' heq
    rw [h1] at heq
    cases heq
    rw [h2, h3]
    dsimp only
    rw [if_pos h4]

theorem irqbuf_to_lr_loop_eq_of_place (hypctx : Hypctx) (d : Dist) (clk : Bool)
    (c : CpuIf) (idx lidx : Nat) (i j : Nat) (vip : VIrq)
    (h1 : vgic_v3_irqbuf_next_enabled c.irqbuf idx c.irqbuf.length hypctx d c = some i)
    (h2 : vgic_v3_lr_next_inactive c.ich_lr_el2 lidx c.ich_lr_el2.length = some j)
    (h3 : c.irqbuf[i]? = some vip)
    (h4 : ¬ (vip.irqtype = Irqtype.clk ∧ clk = true)) :
    vgic_v3_irqbuf_to_lr_loop hypctx d clk c idx lidx =
      vgic_v3_irqbuf_to_lr_loop hypctx d clk
        { c with
          ich_lr_el2 := c.ich_lr_el2.set j (vip_to_lr vip),
          irqbuf := c.irqbuf.set i { vip with irq := IRQ_SCHEDULED } }
        (i + 1) (j + 1) := by
  rw [vgic_v3_irqbuf_to_lr_loop]
  split
  · simp_all
  · rename_i i' heq
    rw [h1] at heq
    cases heq
    rw [h2, h3]
    dsimp only
    rw [if_neg h4]



theorem irqbuf_to_lr_loop_eq_of_nolr (hypctx : Hypctx) (d : Dist) (clk : Bool)
    (c : CpuIf) (idx lidx : Nat) (i : Nat)
    (h1 : vgic_v3_irqbuf_next_enabled c.irqbuf idx c.irqbuf.length hypctx d c = some i)
    (h2 : vgic_v3_lr_next_inactive c.ich_lr_el2 lidx c.ich_lr_el2.length = none) :
    vgic_v3_irqbuf_to_lr_loop hypctx d clk c idx lidx = c := by
  rw [vgic_v3_irqbuf_to_lr_loop]
  split
  · rfl
  · rename_i i' heq
    rw [h1] at heq
    cases heq
    rw [h2]

/-- The loop's result depends on the buffer cursor only through the next
enabled index it finds. -/
theorem irqbuf_to_lr_loop_congr_idx (hypctx : Hypctx) (d : Dist) (clk : Bool)
    (c : CpuIf) (idx idx' lidx : Nat)
    (h : vgic_v3_irqbuf_next_enabled c.irqbuf idx c.irqbuf.length hypctx d c =
        vgic_v3_irqbuf_next_enabled c.irqbuf idx' c.irqbuf.length hypctx d c) :
    vgic_v3_irqbuf_to_lr_loop hypctx d clk c idx lidx =
      vgic_v3_irqbuf_to_lr_loop hypctx d clk c idx' lidx := by
  cases hcase : vgic_v3_irqbuf_next_enabled c.irqbuf idx' c.irqbuf.length hypctx d c with
  | none =>
    rw [irqbuf_to_lr_loop_eq_of_none hypctx d clk c idx lidx (h.trans hcase),
      irqbuf_to_lr_loop_eq_of_none hypctx d clk c idx' lidx hcase]
  | some i =>
    have hb := findFrom_some _ _ _ _ hcase
    have hv : c.irqbuf[i]? = some c.irqbuf[i] := List.getElem?_eq_getElem hb.2.1
    cases hlr : vgic_v3_lr_next_inactive c.ich_lr_el2 lidx c.ich_lr_el2.length with
    | none =>
      rw [irqbuf_to_lr_loop_eq_of_nolr hypctx d clk c idx lidx i (h.trans hcase) hlr,
        irqbuf_to_lr_loop_eq_of_nolr hypctx d clk c idx' lidx i hcase hlr]
    | some j =>
      by_cases hclk : c.irqbuf[i].irqtype = Irqtype.clk ∧ clk = true
      · rw [irqbuf_to_lr_loop_eq_of_skip hypctx d clk c idx lidx i j _ (h.trans hcase) hlr hv hclk,
          irqbuf_to_lr_loop_eq_of_skip hypctx d clk c idx' lidx i j _ hcase hlr hv hclk]
      · rw [irqbuf_to_lr_loop_eq_of_place hypctx d clk c idx lidx i j _ (h.trans hcase) hlr hv hclk,
          irqbuf_to_lr_loop_eq_of_place hypctx d clk c idx' lidx i j _ hcase hlr hv hclk]

theorem vip_place_update (hypctx : Hypctx) (d : Dist) (c : CpuIf) (clk : Bool)
    (a : List LR) (b : List VIrq) :
    vip_place hypctx d { c with ich_lr_el2 := a, irqbuf := b } clk =
      vip_place hypctx d c clk := rfl

theorem placeIntoLRs_congr_start (lrs : List LR) (lidx j : Nat) (vips : List VIrq)
    (h : vgic_v3_lr_next_inactive lrs lidx lrs.length = some j) :
    placeIntoLRs lrs lidx vips = placeIntoLRs lrs j vips := by
  cases vips with
  | nil => rfl
  | cons v rest =>
    have hb := findFrom_some _ _ _ _ h
    have h2 : vgic_v3_lr_next_inactive lrs j lrs.length = some j :=
      findFrom_of_pos _ hb.2.1 hb.2.2.1
    simp only [placeIntoLRs]
    rw [h, h2]


/-- The loop with the buffer cursor past the end does nothing, and the
claimed characterization degenerates correspondingly. -/
theorem irqbuf_to_lr_loop_char_out (hypctx : Hypctx) (d : Dist) (clk : Bool)
    (c : CpuIf) (idx lidx : Nat) (hge : c.irqbuf.length ≤ idx) :
    vgic_v3_irqbuf_to_lr_loop hypctx d clk c idx lidx =
      { c with
        irqbuf := c.irqbuf.take idx ++
          (c.irqbuf.drop idx).map (markScheduled (vip_place hypctx d c clk)),
        ich_lr_el2 := placeIntoLRs c.ich_lr_el2 lidx
          ((c.irqbuf.drop idx).filter (vip_place hypctx d c clk)) } := by
  have hnone : vgic_v3_irqbuf_next_enabled c.irqbuf idx c.irqbuf.length hypctx d c
      = none := findFrom_of_not_lt _ (by omega)
  rw [irqbuf_to_lr_loop_eq_of_none hypctx d clk c idx lidx hnone]
  rw [List.drop_eq_nil_of_le hge, List.take_of_length_le hge]
  simp [placeIntoLRs]

/-- Functional characterization of the placement loop: starting at buffer
cursor `idx` and register cursor `lidx`, with at least as many inactive
registers ahead of `lidx` as buffer entries ahead of `idx`, the loop marks
with IRQ_SCHEDULED exactly the entries ahead of `idx` that satisfy
`vip_place` and copies them, in buffer order, into the successive inactive
registers found from `lidx` on. -/
theorem irqbuf_to_lr_loop_char (hypctx : Hypctx) (d : Dist) (clk : Bool) :
    ∀ (n : Nat) (c : CpuIf) (idx lidx : Nat),
      c.irqbuf.length - idx ≤ n →
      c.irqbuf.length - idx ≤
        countFrom (lr_inactive_at c.ich_lr_el2) lidx c.ich_lr_el2.length →
      vgic_v3_irqbuf_to_lr_loop hypctx d clk c idx lidx =
        { c with
          irqbuf := c.irqbuf.take idx ++
            (c.irqbuf.drop idx).map (markScheduled (vip_place hypctx d c clk)),
          ich_lr_el2 := placeIntoLRs c.ich_lr_el2 lidx
            ((c.irqbuf.drop idx).filter (vip_place hypctx d c clk)) } := by
  intro n
  induction n with
  | zero =>
    intro c idx lidx hn hslots
    exact irqbuf_to_lr_loop_char_out hypctx d clk c idx lidx (by omega)
  | succ m ih =>
    intro c idx lidx hn hslots
    by_cases hidx : idx < c.irqbuf.length
    case neg =>
      exact irqbuf_to_lr_loop_char_out hypctx d clk c idx lidx (by omega)
    case pos =>
      have hv : c.irqbuf[idx]? = some c.irqbuf[idx] := List.getElem?_eq_getElem hidx
      have hdrop : c.irqbuf.drop idx = c.irqbuf[idx] :: c.irqbuf.drop (idx + 1) :=
        List.drop_eq_getElem_cons hidx
      by_cases hpass : vip_pass hypctx d c c.irqbuf[idx] = true
      case neg =>
        replace hpass : vip_pass hypctx d c c.irqbuf[idx] = false := by
          simpa using hpass
        have hpassf : irqbuf_pass c.irqbuf hypctx d c idx = false := by
          rw [irqbuf_pass_of_getElem _ _ _ _ _ _ hv, hpass]
        have hnexteq : vgic_v3_irqbuf_next_enabled c.irqbuf idx c.irqbuf.length
            hypctx d c = vgic_v3_irqbuf_next_enabled c.irqbuf (idx + 1)
            c.irqbuf.length hypctx d c :=
          findFrom_of_neg _ hidx hpassf
        rw [irqbuf_to_lr_loop_congr_idx hypctx d clk c idx (idx + 1) lidx hnexteq]
        rw [ih c (idx + 1) lidx (by omega) (by omega)]
        have hplacef : vip_place hypctx d c clk c.irqbuf[idx] = false := by
          simp [vip_place, hpass]
        rw [hdrop, List.map_cons, List.filter_cons]
        have htake : c.irqbuf.take (idx + 1) = c.irqbuf.take idx ++ [c.irqbuf[idx]] := by
          rw [List.take_succ, hv]
          rfl
        have hmark : markScheduled (vip_place hypctx d c clk) c.irqbuf[idx]
            = c.irqbuf[idx] := by
          simp [markScheduled, hplacef]
        rw [hmark, if_neg (by simp [hplacef]), htake, List.append_assoc]
        rfl
      case pos =>
        have hpasst : irqbuf_pass c.irqbuf hypctx d c idx = true := by
          rw [irqbuf_pass_of_getElem _ _ _ _ _ _ hv, hpass]
        have hfound : vgic_v3_irqbuf_next_enabled c.irqbuf idx c.irqbuf.length
            hypctx d c = some idx := findFrom_of_pos _ hidx hpasst
        have hcnt : 0 < countFrom (lr_inactive_at c.ich_lr_el2) lidx
            c.ich_lr_el2.length := by omega
        obtain ⟨j, hj⟩ := findFrom_isSome_of_countFrom_pos _ _ _ hcnt
        have hjb := findFrom_some _ _ _ _ hj
        have hcshift : countFrom (lr_inactive_at c.ich_lr_el2) lidx
            c.ich_lr_el2.length =
            countFrom (lr_inactive_at c.ich_lr_el2) j c.ich_lr_el2.length :=
          countFrom_congr_start _ lidx j _ hjb.1 (by omega)
            (fun k hk1 hk2 => hjb.2.2.2 k hk1 hk2)
        have hcjsucc : countFrom (lr_inactive_at c.ich_lr_el2) j
            c.ich_lr_el2.length =
            1 + countFrom (lr_inactive_at c.ich_lr_el2) (j + 1)
              c.ich_lr_el2.length := by
          rw [countFrom_succ _ hjb.2.1, if_pos hjb.2.2.1]
        by_cases hclk : c.irqbuf[idx].irqtype = Irqtype.clk ∧ clk = true
        case pos =>
          rw [irqbuf_to_lr_loop_eq_of_skip hypctx d clk c idx lidx idx j _
            hfound hj hv hclk]
          rw [ih c (idx + 1) j (by omega) (by omega)]
          have hplacef : vip_place hypctx d c clk c.irqbuf[idx] = false := by
            simp [vip_place, hclk.1, hclk.2]
          rw [hdrop, List.map_cons, List.filter_cons]
          rw [placeIntoLRs_congr_start c.ich_lr_el2 lidx j _ hj]
          have htake : c.irqbuf.take (idx + 1) = c.irqbuf.take idx ++ [c.irqbuf[idx]] := by
            rw [List.take_succ, hv]
            rfl
          have hmark : markScheduled (vip_place hypctx d c clk) c.irqbuf[idx]
              = c.irqbuf[idx] := by
            simp [markScheduled, hplacef]
          rw [hmark, if_neg (by simp [hplacef]), htake, List.append_assoc]
          rfl
        case neg =>
          rw [irqbuf_to_lr_loop_eq_of_place hypctx d clk c idx lidx idx j _
            hfound hj hv hclk]
          have hplacet : vip_place hypctx d c clk c.irqbuf[idx] = true := by
            have hb : (c.irqbuf[idx].irqtype == Irqtype.clk && clk) = false := by
              rcases Bool.eq_false_or_eq_true clk with hc | hc
              · have hne : ¬ c.irqbuf[idx].irqtype = Irqtype.clk :=
                  fun he => hclk ⟨he, hc⟩
                simp [hne]
              · simp [hc]
            simp [vip_place, hpass, hb]
          set v2 : VIrq := { c.irqbuf[idx] with irq := IRQ_SCHEDULED } with hv2
          set c2 : CpuIf := { c with
            ich_lr_el2 := c.ich_lr_el2.set j (vip_to_lr c.irqbuf[idx]),
            irqbuf := c.irqbuf.set idx v2 } with hc2
          have hlen2 : c2.irqbuf.length = c.irqbuf.length := by
            simp [hc2, List.length_set]
          have hlrlen2 : c2.ich_lr_el2.length = c.ich_lr_el2.length := by
            simp [hc2, List.length_set]
          have hcnt2 : countFrom (lr_inactive_at c2.ich_lr_el2) (j + 1)
              c2.ich_lr_el2.length =
              countFrom (lr_inactive_at c.ich_lr_el2) (j + 1)
                c.ich_lr_el2.length := by
            rw [hlrlen2]
            refine countFrom_congr _ _ _ _ (fun k hk1 hk2 => ?_)
            simp [hc2, lr_inactive_at, List.getElem?_set_ne (show j ≠ k by omega)]
          rw [ih c2 (idx + 1) (j + 1) (by rw [hlen2]; omega)
            (by rw [hlen2, hcnt2]; omega)]
          have hdrop2 : c2.irqbuf.drop (idx + 1) = c.irqbuf.drop (idx + 1) := by
            simp [hc2, List.drop_set_of_lt _ _ (by omega : idx < idx + 1)]
          have htake2 : c2.irqbuf.take (idx + 1) = c.irqbuf.take idx ++ [v2] := by
            have hset : c2.irqbuf = c.irqbuf.take idx ++ v2 :: c.irqbuf.drop (idx + 1) := by
              simp [hc2, List.set_eq_take_append_cons_drop, hidx]
            have hlt : (c.irqbuf.take idx).length = idx := by
              rw [List.length_take]; omega
            rw [hset, show idx + 1 = (c.irqbuf.take idx).length + 1 by rw [hlt],
              List.take_append]
            simp
          have hpl2 : vip_place hypctx d c2 clk = vip_place hypctx d c clk := rfl
          rw [hpl2, hdrop2, htake2]
          rw [hdrop, List.map_cons, List.filter_cons]
          have hmark : markScheduled (vip_place hypctx d c clk) c.irqbuf[idx] = v2 := by
            simp [markScheduled, hplacet]
          rw [hmark, if_pos hplacet]
          have hlrs : placeIntoLRs c.ich_lr_el2 lidx
              (c.irqbuf[idx] :: (c.irqbuf.drop (idx + 1)).filter
                (vip_place hypctx d c clk)) =
              placeIntoLRs c2.ich_lr_el2 (j + 1)
                ((c.irqbuf.drop (idx + 1)).filter (vip_place hypctx d c clk)) := by
            rw [placeIntoLRs_congr_start c.ich_lr_el2 lidx j _ hj]
            simp only [placeIntoLRs]
            rw [show vgic_v3_lr_next_inactive c.ich_lr_el2 j c.ich_lr_el2.length
              = some j from findFrom_of_pos _ hjb.2.1 hjb.2.2.1]
          rw [← hlrs]
          simp [hc2]


/-- Purging the sentinel after marking removes exactly the placed entries:
on a buffer that held no sentinel ID beforehand, marking with `pl` and then
removing IRQ_SCHEDULED keeps exactly the entries failing `pl`. -/
theorem remove_scheduled_after_mark (pl : VIrq → Bool) :
    ∀ buf : List VIrq, (∀ v ∈ buf, v.irq ≠ IRQ_SCHEDULED) →
      vgic_v3_irqbuf_remove_nolock IRQ_SCHEDULED (buf.map (markScheduled pl)) =
        buf.filter (fun v => !(pl v)) := by
  intro buf
  induction buf with
  | nil => intro _; rfl
  | cons v rest ih =>
    intro h
    have hv : v.irq ≠ IRQ_SCHEDULED := h v (by simp)
    have hrest := ih (fun w hw => h w (by simp [hw]))
    rw [List.map_cons]
    rw [vgic_v3_irqbuf_remove_nolock] at hrest ⊢
    rw [List.filter_cons, List.filter_cons]
    by_cases hpl : pl v = true
    · simp [markScheduled, hpl, hrest]
    · replace hpl : pl v = false := by simpa using hpl
      simp [markScheduled, hpl, hrest, hv]

/-- Fast-path behaviour of `vgic_v3_sync_hwstate`: when every buffered entry
fits into the inactive list registers (and no entry already carries the
sentinel ID), the pass keeps buffered exactly the entries that fail
`vip_place` and copies the passing entries, in buffer order, into the
successive inactive registers. -/
theorem sync_hwstate_fastpath (hypctx : Hypctx) (d : Dist)
    (hfit : hypctx.vgic_cpu_if.irqbuf.length ≤ lr_free_count hypctx.vgic_cpu_if)
    (hns : ∀ v ∈ hypctx.vgic_cpu_if.irqbuf, v.irq ≠ IRQ_SCHEDULED) :
    vgic_v3_sync_hwstate hypctx d =
      some { hypctx.vgic_cpu_if with
        irqbuf := hypctx.vgic_cpu_if.irqbuf.filter (fun v =>
          !(vip_place hypctx d hypctx.vgic_cpu_if
              (clk_in_lr hypctx.vgic_cpu_if.ich_lr_el2) v)),
        ich_lr_el2 := placeIntoLRs hypctx.vgic_cpu_if.ich_lr_el2 0
          (hypctx.vgic_cpu_if.irqbuf.filter
            (vip_place hypctx d hypctx.vgic_cpu_if
              (clk_in_lr hypctx.vgic_cpu_if.ich_lr_el2))) } := by
  rw [vgic_v3_sync_hwstate]
  by_cases h0 : hypctx.vgic_cpu_if.irqbuf.length = 0
  · have hnil : hypctx.vgic_cpu_if.irqbuf = [] :=
      List.eq_nil_of_length_eq_zero h0
    rw [if_pos h0]
    simp only [hnil, List.filter_nil, placeIntoLRs]
    rw [← hnil]
  · rw [if_neg h0, if_pos hfit]
    rw [vgic_v3_irqbuf_to_lr]
    rw [irqbuf_to_lr_loop_char hypctx d _ hypctx.vgic_cpu_if.irqbuf.length
      hypctx.vgic_cpu_if 0 0 (by omega) (by simpa [lr_free_count] using hfit)]
    simp only [List.take_zero, List.drop_zero, List.nil_append]
    rw [remove_scheduled_after_mark _ _ hns]


/-! ## Concrete fixtures

A small open configuration: 64 interrupt IDs, both groups enabled at the
Distributor, affinity routing disabled, every interrupt ID enabled and in
group 1. -/

def dist_open : Dist :=
  { gicd_ctlr_g1 := true, gicd_ctlr_g1a := true, gicd_ctlr_are_ns := false,
    nirqs := 64,
    gicd_igroupr := fun _ => 0xffffffff,
    gicd_ipriorityr := fun _ => 0,
    gicd_irouter := fun _ => 0,
    gicd_ixenabler := fun _ => 0xffffffff }

def redist_open : Redist :=
  { gicr_typer := 0, gicr_ctlr_dpg0 := false, gicr_ctlr_dpg1ns := false,
    gicr_igroupr0 := 0xffffffff, gicr_ixenabler0 := 0xffffffff,
    gicr_ipriorityr := fun _ => 0 }

/-- An inactive list register. -/
def lr_free : LR := { vintid := 0, group := 0, prio := 0, state := LRState.inactive }

/-- The virtual timer interrupt (vINTID 27) pending in a list register. -/
def lr27_pending : LR := { vintid := 27, group := 1, prio := 0, state := LRState.pending }

/-- A buffered virtual-timer interrupt. -/
def clk_entry : VIrq :=
  { irq := 27, irqtype := Irqtype.clk, group := 1, enabled := true, priority := 10 }

/-- The per-vCPU interface as `vgic_v3_cpuinit` leaves it, parametrized by
list registers and buffer contents: both VMCR group enables set, priority
mask at the minimum priority, capacity IRQBUF_SIZE_MIN. -/
def mkCpuIf (lrs : List LR) (buf : List VIrq) : CpuIf :=
  { ich_vmcr_veng0 := true, ich_vmcr_veng1 := true, ich_vmcr_vpmr := 0xff,
    ich_lr_el2 := lrs, irqbuf := buf, irqbuf_size := IRQBUF_SIZE_MIN }

def mkHypctx (lrs : List LR) (buf : List VIrq) : Hypctx :=
  { vgic_redist := redist_open, vgic_cpu_if := mkCpuIf lrs buf }

/-! ## C1: buffer capacity -/

/-- The per-vCPU buffer states reachable from the `vgic_v3_cpuinit` state
(empty buffer, capacity IRQBUF_SIZE_MIN) through any sequence of returning
`vgic_v3_inject_irq` calls. -/
inductive injectReach (r : Redist) (d : Dist) : CpuIf → Prop where
  | init (c : CpuIf) (hbuf : c.irqbuf = [])
      (hsize : c.irqbuf_size = IRQBUF_SIZE_MIN) : injectReach r d c
  | step (c c' : CpuIf) (irq : Nat) (t : Irqtype) (e : Nat)
      (hc : injectReach r d c)
      (hstep : vgic_v3_inject_irq ⟨r, c⟩ d irq t = VgicResult.ret e c') :
      injectReach r d c'

theorem irqbuf_add_nolock_some (c : CpuIf) (vip : VIrq) (c' : CpuIf)
    (h : vgic_v3_irqbuf_add_nolock c vip = some c') :
    c'.irqbuf = c.irqbuf ++ [vip] ∧
    ((c.irqbuf.length = c.irqbuf_size ∧ c'.irqbuf_size = c.irqbuf_size * 2 ∧
        c.irqbuf_size * 2 ≤ IRQBUF_SIZE_MAX) ∨
      (c.irqbuf.length ≠ c.irqbuf_size ∧ c'.irqbuf_size = c.irqbuf_size)) := by
  rw [vgic_v3_irqbuf_add_nolock] at h
  have h2 : c.irqbuf_size <<< 1 = c.irqbuf_size * 2 := by
    rw [Nat.shiftLeft_eq]
  by_cases hfull : c.irqbuf.length = c.irqbuf_size
  · rw [if_pos hfull] at h
    by_cases hmax : c.irqbuf_size <<< 1 > IRQBUF_SIZE_MAX
    · rw [if_pos hmax] at h; cases h
    · rw [if_neg hmax] at h
      injection h with h
      subst h
      exact ⟨rfl, Or.inl ⟨hfull, by simpa using h2, by omega⟩⟩
  · rw [if_neg hfull] at h
    injection h with h
    subst h
    exact ⟨rfl, Or.inr ⟨hfull, rfl⟩⟩

theorem irqbuf_add_nolock_none (c : CpuIf) (vip : VIrq)
    (hfull : c.irqbuf.length = c.irqbuf_size)
    (hmax : c.irqbuf_size = IRQBUF_SIZE_MAX) :
    vgic_v3_irqbuf_add_nolock c vip = none := by
  rw [vgic_v3_irqbuf_add_nolock, if_pos hfull, if_pos (by rw [hmax]; decide)]

/-- Every reachable buffer state keeps `irqbuf_num ≤ irqbuf_size` with the
capacity between IRQBUF_SIZE_MIN and IRQBUF_SIZE_MAX. -/
theorem injectReach_invariant (r : Redist) (d : Dist) :
    ∀ c, injectReach r d c →
      c.irqbuf.length ≤ c.irqbuf_size ∧ IRQBUF_SIZE_MIN ≤ c.irqbuf_size ∧
        c.irqbuf_size ≤ IRQBUF_SIZE_MAX := by
  intro c h
  induction h with
  | init c hbuf hsize => rw [hbuf, hsize]; refine ⟨by simp, le_refl _, by decide⟩
  | step c c' irq t e hc hstep ih =>
    rw [vgic_v3_inject_irq] at hstep
    by_cases hsgi : irq > GIC_LAST_SGI
    case neg =>
      rw [if_pos (by omega)] at hstep
      cases hstep
    case pos =>
      rw [if_neg (by omega)] at hstep
      by_cases hmal : irq ≥ d.nirqs ∨ t.ord ≥ Irqtype.invalid.ord
      · rw [if_pos hmal] at hstep
        injection hstep with _ h'
        subst h'
        exact ih
      · rw [if_neg hmal] at hstep
        dsimp only at hstep
        cases hadd : vgic_v3_irqbuf_add_nolock c
            { irq := irq, irqtype := t,
              group := vgic_v3_get_int_group irq ⟨r, c⟩ d,
              enabled := vgic_v3_group_enabled
                  (vgic_v3_get_int_group irq ⟨r, c⟩ d) d &&
                vgic_v3_intid_enabled irq ⟨r, c⟩ d &&
                vgic_v3_int_target irq ⟨r, c⟩ d,
              priority := vgic_v3_get_priority irq ⟨r, c⟩ d } with
        | none =>
          rw [hadd] at hstep
          injection hstep with _ h'
          subst h'
          exact ih
        | some c2 =>
          rw [hadd] at hstep
          injection hstep with _ h'
          subst h'
          obtain ⟨hb, hcase⟩ := irqbuf_add_nolock_some _ _ _ hadd
          have hlen : c2.irqbuf.length = c.irqbuf.length + 1 := by
            rw [hb]; simp
          have hmin : IRQBUF_SIZE_MIN = 32 := rfl
          rcases hcase with ⟨hf, hs, hsle⟩ | ⟨hf, hs⟩ <;> omega

/-- C1: for every sequence of `inject` calls the buffer never exceeds the
hard maximum IRQBUF_SIZE_MAX = 1024; an inject (of a non-SGI ID) issued when
the buffer holds 1024 entries returns error 1 and leaves the buffer
contents, count and capacity unchanged (the returned state is the input
state itself). -/
theorem inject_capacity_invariant (r : Redist) (d : Dist) (c : CpuIf)
    (hreach : injectReach r d c) :
    c.irqbuf.length ≤ IRQBUF_SIZE_MAX ∧
    ∀ irq t, GIC_LAST_SGI < irq → c.irqbuf.length = IRQBUF_SIZE_MAX →
      vgic_v3_inject_irq ⟨r, c⟩ d irq t = VgicResult.ret 1 c := by
  obtain ⟨hle, hmin, hmax⟩ := injectReach_invariant r d c hreach
  refine ⟨by omega, fun irq t hsgi hfull => ?_⟩
  have hsz : c.irqbuf_size = IRQBUF_SIZE_MAX := by omega
  rw [vgic_v3_inject_irq, if_neg (not_not_intro hsgi)]
  by_cases hmal : irq ≥ d.nirqs ∨ t.ord ≥ Irqtype.invalid.ord
  · rw [if_pos hmal]
  · rw [if_neg hmal]
    dsimp only
    rw [irqbuf_add_nolock_none c _ (by omega) hsz]

/-- C1 witness: the initial state is reachable and satisfies the bound. -/
theorem inject_capacity_invariant_witness :
    (mkCpuIf [] []).irqbuf.length ≤ IRQBUF_SIZE_MAX :=
  (inject_capacity_invariant redist_open dist_open (mkCpuIf [] [])
    (injectReach.init (mkCpuIf [] []) rfl rfl)).1


/-! ## C10 and C9: SGI assertion and malformed requests -/

/-- C10: injecting any ID in the SGI range (0..15) never reaches the
malformed-request error path and never appends a buffer entry: the
`KASSERT(irq > GIC_LAST_SGI)` fires first (the panic outcome), even though
such IDs lie inside the configured range (`nirqs` is `32 * (n + 1)` by
GICD_TYPER_I_NUM, so at least 32). -/
theorem inject_sgi_trips_assertion (hypctx : Hypctx) (d : Dist) (irq : Nat)
    (t : Irqtype) (hsgi : irq ≤ GIC_LAST_SGI) (hn : 32 ≤ d.nirqs) :
    vgic_v3_inject_irq hypctx d irq t = VgicResult.panic ∧ irq < d.nirqs := by
  have h15 : GIC_LAST_SGI = 15 := rfl
  constructor
  · rw [vgic_v3_inject_irq, if_pos (Nat.not_lt.mpr hsgi)]
  · omega

/-- C10 witness: injecting SGI 5 panics though 5 is in range. -/
theorem inject_sgi_trips_assertion_witness :
    vgic_v3_inject_irq (mkHypctx [] []) dist_open 5 Irqtype.misc =
      VgicResult.panic ∧ 5 < dist_open.nirqs :=
  inject_sgi_trips_assertion (mkHypctx [] []) dist_open 5 Irqtype.misc
    (by decide) (by decide)

/-- C9 counterexample: `inject(5, VGIC_IRQ_INVALID)` is a malformed request
(ID 5 lies inside the configured range, the type is invalid), so the claim
requires a synchronous error return; the code instead trips the SGI
assertion and panics. -/
theorem inject_invalid_type_sgi_counterexample :
    vgic_v3_inject_irq (mkHypctx [] []) dist_open 5 Irqtype.invalid =
      VgicResult.panic ∧
    5 < dist_open.nirqs ∧
    Irqtype.invalid.ord ≥ Irqtype.invalid.ord := by
  exact ⟨by decide, by decide, le_refl _⟩

/-- C9 (amended): an inject whose ID is above the SGI range and out of the
configured range or with an invalid delivery type, and a remove whose ID is
out of the configured range, return error 1 synchronously with the vCPU
state unchanged (the state returned is the input state itself); an inject
with an ID in the SGI range trips the assertion instead (see C10). -/
theorem malformed_request_rejected_outside_sgi (hypctx : Hypctx) (d : Dist)
    (irq : Nat) (t : Irqtype) (b : Bool) :
    (GIC_LAST_SGI < irq → (d.nirqs ≤ irq ∨ Irqtype.invalid.ord ≤ t.ord) →
      vgic_v3_inject_irq hypctx d irq t = VgicResult.ret 1 hypctx.vgic_cpu_if) ∧
    (d.nirqs ≤ irq →
      vgic_v3_remove_irq hypctx d irq b = VgicResult.ret 1 hypctx.vgic_cpu_if) := by
  constructor
  · intro hsgi hmal
    rw [vgic_v3_inject_irq, if_neg (not_not_intro hsgi), if_pos hmal]
  · intro hrange
    rw [vgic_v3_remove_irq, if_pos hrange]

/-- C9 witness: ID 2000 is rejected by both inject and remove with no state
change. -/
theorem malformed_request_rejected_witness :
    vgic_v3_inject_irq (mkHypctx [] []) dist_open 2000 Irqtype.misc =
      VgicResult.ret 1 (mkHypctx [] []).vgic_cpu_if ∧
    vgic_v3_remove_irq (mkHypctx [] []) dist_open 2000 false =
      VgicResult.ret 1 (mkHypctx [] []).vgic_cpu_if :=
  ⟨(malformed_request_rejected_outside_sgi (mkHypctx [] []) dist_open 2000
      Irqtype.misc false).1 (by decide) (Or.inl (by decide)),
   (malformed_request_rejected_outside_sgi (mkHypctx [] []) dist_open 2000
      Irqtype.misc false).2 (by decide)⟩


/-! ## C2: the fast path of the synchronizer -/

/-- C2 (amended): on the fast path (buffered entries fit in the inactive
list registers; no buffered entry already carries the sentinel ID), the pass
places into successive inactive registers, in arrival order, exactly the
entries that pass `vip_place` — enabled snapshot set, current group enabled
in the VMCR, and not a timer-clock entry blocked by the anti-starvation
guard — marking each with IRQ_SCHEDULED and then purging exactly the
sentinel-marked entries; every skipped entry remains buffered. -/
theorem sync_fastpath_places_enabled_unblocked (hypctx : Hypctx) (d : Dist)
    (hfit : hypctx.vgic_cpu_if.irqbuf.length ≤ lr_free_count hypctx.vgic_cpu_if)
    (hns : ∀ v ∈ hypctx.vgic_cpu_if.irqbuf, v.irq ≠ IRQ_SCHEDULED) :
    vgic_v3_sync_hwstate hypctx d =
      some { hypctx.vgic_cpu_if with
        irqbuf := hypctx.vgic_cpu_if.irqbuf.filter (fun v =>
          !(vip_place hypctx d hypctx.vgic_cpu_if
              (clk_in_lr hypctx.vgic_cpu_if.ich_lr_el2) v)),
        ich_lr_el2 := placeIntoLRs hypctx.vgic_cpu_if.ich_lr_el2 0
          (hypctx.vgic_cpu_if.irqbuf.filter
            (vip_place hypctx d hypctx.vgic_cpu_if
              (clk_in_lr hypctx.vgic_cpu_if.ich_lr_el2))) } :=
  sync_hwstate_fastpath hypctx d hfit hns

/-- C2 counterexample: one enabled timer-clock entry, one inactive register,
and the timer interrupt resident (pending) in another register.  The entry
passes both skip conditions the claim lists (`vip_pass` holds: its enabled
snapshot is set and its group is enabled at VMCR level), the fast-path
precondition holds (1 buffered entry ≤ 1 inactive register), yet the pass
returns with the state completely unchanged: the entry was neither placed
nor removed, contradicting the claimed placement of every non-skipped
entry. -/
theorem sync_fastpath_clk_skip_counterexample :
    vip_pass (mkHypctx [lr27_pending, lr_free] [clk_entry]) dist_open
        (mkCpuIf [lr27_pending, lr_free] [clk_entry]) clk_entry = true ∧
    (mkCpuIf [lr27_pending, lr_free] [clk_entry]).irqbuf.length ≤
      lr_free_count (mkCpuIf [lr27_pending, lr_free] [clk_entry]) ∧
    vgic_v3_sync_hwstate (mkHypctx [lr27_pending, lr_free] [clk_entry])
        dist_open =
      some (mkCpuIf [lr27_pending, lr_free] [clk_entry]) := by
  refine ⟨by decide, by decide, ?_⟩
  rw [sync_hwstate_fastpath (mkHypctx [lr27_pending, lr_free] [clk_entry])
    dist_open (by decide) (by decide)]
  decide

/-- A plain enabled device-style entry for the C2 witness. -/
def misc_entry : VIrq :=
  { irq := 40, irqtype := Irqtype.misc, group := 1, enabled := true,
    priority := 10 }

/-- C2 witness: a non-timer enabled entry with a free register is placed
(pending, with its group and priority) and purged from the buffer. -/
theorem sync_fastpath_places_witness :
    vgic_v3_sync_hwstate (mkHypctx [lr_free] [misc_entry]) dist_open =
      some { (mkCpuIf [lr_free] [misc_entry]) with
        irqbuf := [],
        ich_lr_el2 :=
          [{ vintid := 40, group := 1, prio := 10, state := LRState.pending }] } := by
  rw [sync_fastpath_places_enabled_unblocked (mkHypctx [lr_free] [misc_entry])
    dist_open (by decide) (by decide)]
  decide

/-! ## C5: the timer anti-starvation guard -/

/-- C5: in any completed synchronization pass that starts with the timer
interrupt (vINTID 27) resident in a non-inactive list register, no buffered
timer-clock entry is placed into any register — everything placed has a
different delivery type — and the timer-clock entries remain buffered
unchanged. -/
theorem timer_antistarvation_guard (hypctx : Hypctx) (d : Dist) (c' : CpuIf)
    (hclk : clk_in_lr hypctx.vgic_cpu_if.ich_lr_el2 = true)
    (hns : ∀ v ∈ hypctx.vgic_cpu_if.irqbuf, v.irq ≠ IRQ_SCHEDULED)
    (hsync : vgic_v3_sync_hwstate hypctx d = some c') :
    c'.irqbuf.filter (fun v => v.irqtype == Irqtype.clk) =
      hypctx.vgic_cpu_if.irqbuf.filter (fun v => v.irqtype == Irqtype.clk) ∧
    ∃ placed : List VIrq, (∀ v ∈ placed, v.irqtype ≠ Irqtype.clk) ∧
      c'.ich_lr_el2 = placeIntoLRs hypctx.vgic_cpu_if.ich_lr_el2 0 placed := by
  by_cases h0 : hypctx.vgic_cpu_if.irqbuf.length = 0
  · have hs : vgic_v3_sync_hwstate hypctx d = some hypctx.vgic_cpu_if := by
      rw [vgic_v3_sync_hwstate, if_pos h0]
    rw [hs] at hsync
    injection hsync with hsync
    subst hsync
    exact ⟨rfl, [], by simp, rfl⟩
  · by_cases hfit : hypctx.vgic_cpu_if.irqbuf.length ≤
        lr_free_count hypctx.vgic_cpu_if
    · rw [sync_hwstate_fastpath hypctx d hfit hns] at hsync
      injection hsync with hsync
      subst hsync
      constructor
      · rw [List.filter_filter]
        refine List.filter_congr (fun v _ => ?_)
        by_cases hc : v.irqtype = Irqtype.clk
        · have : vip_place hypctx d hypctx.vgic_cpu_if
              (clk_in_lr hypctx.vgic_cpu_if.ich_lr_el2) v = false := by
            simp [vip_place, hc, hclk]
          simp [hc, this]
        · simp [hc]
      · refine ⟨hypctx.vgic_cpu_if.irqbuf.filter
          (vip_place hypctx d hypctx.vgic_cpu_if
            (clk_in_lr hypctx.vgic_cpu_if.ich_lr_el2)), fun v hv => ?_, rfl⟩
        have hpl := List.of_mem_filter hv
        intro hc
        rw [vip_place, hclk] at hpl
        simp [hc] at hpl
    · have hs : vgic_v3_sync_hwstate hypctx d = none := by
        rw [vgic_v3_sync_hwstate, if_neg h0, if_neg hfit]
      rw [hs] at hsync
      cases hsync

/-- C5 witness: with the timer pending in a register and one timer-clock
entry buffered, the pass leaves the timer-clock entries buffered. -/
theorem timer_antistarvation_guard_witness :
    ((mkCpuIf [lr27_pending, lr_free] [clk_entry]).irqbuf.filter
        (fun v => v.irqtype == Irqtype.clk)) =
      (mkHypctx [lr27_pending, lr_free] [clk_entry]).vgic_cpu_if.irqbuf.filter
        (fun v => v.irqtype == Irqtype.clk) :=
  (timer_antistarvation_guard (mkHypctx [lr27_pending, lr_free] [clk_entry])
    dist_open (mkCpuIf [lr27_pending, lr_free] [clk_entry]) (by decide)
    (by decide)
    (by
      rw [sync_hwstate_fastpath (mkHypctx [lr27_pending, lr_free] [clk_entry])
        dist_open (by decide) (by decide)]
      decide)).1


/-! ## C3 and C4: overflow-path arbitration -/

/-- The filter `vgic_v3_highest_priority_pending` applies before comparing
candidates: not already scheduled, group enabled, ID enabled, a valid
target, and priority below the VMCR priority mask. -/
def vip_schedulable (hypctx : Hypctx) (d : Dist) (vpmr : Nat) (v : VIrq) : Bool :=
  (v.irq != IRQ_SCHEDULED) &&
    vgic_v3_group_enabled (vgic_v3_get_int_group v.irq hypctx d) d &&
    vgic_v3_intid_enabled v.irq hypctx d &&
    vgic_v3_int_target v.irq hypctx d &&
    decide (v.priority < vpmr)

/-- Arbitration over a two-entry buffer: the second entry wins exactly when
its priority value is strictly greater, or equal with a more urgent (lower
ordinal) delivery type; otherwise the first entry wins. -/
theorem hpp_two_entries (c : CpuIf) (hypctx : Hypctx) (d : Dist) (v1 v2 : VIrq)
    (h1 : vip_schedulable hypctx d c.ich_vmcr_vpmr v1 = true)
    (h2 : vip_schedulable hypctx d c.ich_vmcr_vpmr v2 = true)
    (hbuf : c.irqbuf = [v1, v2]) :
    vgic_v3_highest_priority_pending c hypctx d =
      some (if v1.priority < v2.priority ∨
          (v2.priority = v1.priority ∧ v2.irqtype.ord < v1.irqtype.ord)
        then v2 else v1) := by
  simp only [vip_schedulable, Bool.and_eq_true, bne_iff_ne, ne_eq,
    decide_eq_true_eq] at h1 h2
  obtain ⟨⟨⟨⟨h1a, h1b⟩, h1c⟩, h1d⟩, h1e⟩ := h1
  obtain ⟨⟨⟨⟨h2a, h2b⟩, h2c⟩, h2d⟩, h2e⟩ := h2
  have hstep1 : hpp_step hypctx d c.ich_vmcr_vpmr none v1 = some v1 := by
    rw [hpp_step, if_neg h1a, if_neg (by simp [h1b]), if_neg (by simp [h1c]),
      if_neg (by simp [h1d]), if_neg (by omega)]
  rw [vgic_v3_highest_priority_pending, hbuf]
  rw [List.foldl_cons, List.foldl_cons, List.foldl_nil, hstep1]
  rw [hpp_step, if_neg h2a, if_neg (by simp [h2b]), if_neg (by simp [h2c]),
    if_neg (by simp [h2d]), if_neg (by omega)]
  by_cases hgt : v2.priority > v1.priority
  · rw [if_pos hgt, if_pos (Or.inl hgt)]
  · rw [if_neg hgt]
    by_cases heq : v2.priority = v1.priority ∧ v2.irqtype.ord < v1.irqtype.ord
    · rw [if_pos heq, if_pos (Or.inr heq)]
    · rw [if_neg heq, if_neg (by rintro (h | h); exact hgt h; exact heq h)]

/-- C3 (amended): under the overflow path `vgic_v3_sync_hwstate` halts (the
diagnostic panic) before filling any register, and the arbitration function
it would use, given two schedulable entries of distinct priorities, always
selects the one with the numerically GREATER priority value. -/
theorem overflow_halts_and_selects_max_numeric (hypctx : Hypctx) (d : Dist)
    (v1 v2 : VIrq)
    (hne : hypctx.vgic_cpu_if.irqbuf.length ≠ 0)
    (hover : lr_free_count hypctx.vgic_cpu_if <
      hypctx.vgic_cpu_if.irqbuf.length)
    (h1 : vip_schedulable hypctx d hypctx.vgic_cpu_if.ich_vmcr_vpmr v1 = true)
    (h2 : vip_schedulable hypctx d hypctx.vgic_cpu_if.ich_vmcr_vpmr v2 = true)
    (hp : v1.priority < v2.priority)
    (hbuf : hypctx.vgic_cpu_if.irqbuf = [v1, v2]) :
    vgic_v3_sync_hwstate hypctx d = none ∧
    vgic_v3_highest_priority_pending hypctx.vgic_cpu_if hypctx d = some v2 := by
  constructor
  · rw [vgic_v3_sync_hwstate, if_neg hne, if_neg (by omega)]
  · rw [hpp_two_entries hypctx.vgic_cpu_if hypctx d v1 v2 h1 h2 hbuf,
      if_pos (Or.inl hp)]

def p5_entry : VIrq :=
  { irq := 40, irqtype := Irqtype.misc, group := 1, enabled := true,
    priority := 5 }

def p10_entry : VIrq :=
  { irq := 41, irqtype := Irqtype.misc, group := 1, enabled := true,
    priority := 10 }

/-- C3 counterexample: two schedulable entries of priorities 5 and 10 and a
single inactive register.  The claim says the pass selects the priority-5
entry (lower numeric value) for the slot; instead the pass halts
(`panic("reshuffled")`, the `none` outcome) without filling any slot, and
the arbitration function ranks the priority-10 entry first. -/
theorem overflow_numeric_priority_counterexample :
    vgic_v3_sync_hwstate (mkHypctx [lr_free] [p5_entry, p10_entry]) dist_open
      = none ∧
    vgic_v3_highest_priority_pending (mkCpuIf [lr_free] [p5_entry, p10_entry])
        (mkHypctx [lr_free] [p5_entry, p10_entry]) dist_open = some p10_entry ∧
    p5_entry.priority < p10_entry.priority := by
  refine ⟨?_, by decide, by decide⟩
  rw [vgic_v3_sync_hwstate, if_neg (by decide), if_neg (by decide)]

def p3_entry : VIrq :=
  { irq := 42, irqtype := Irqtype.misc, group := 1, enabled := true,
    priority := 3 }

def p7_entry : VIrq :=
  { irq := 43, irqtype := Irqtype.misc, group := 1, enabled := true,
    priority := 7 }

/-- C3 witness: concrete two-entry overflow state; the pass halts and the
priority-7 entry is the one selected by arbitration. -/
theorem overflow_halts_and_selects_max_numeric_witness :
    vgic_v3_sync_hwstate (mkHypctx [lr_free] [p3_entry, p7_entry]) dist_open
      = none ∧
    vgic_v3_highest_priority_pending (mkCpuIf [lr_free] [p3_entry, p7_entry])
      (mkHypctx [lr_free] [p3_entry, p7_entry]) dist_open = some p7_entry :=
  overflow_halts_and_selects_max_numeric
    (mkHypctx [lr_free] [p3_entry, p7_entry]) dist_open p3_entry p7_entry
    (by decide) (by decide) (by decide) (by decide) (by decide) rfl

/-- C4 (amended): at equal priority the arbitration function selects the
entry whose delivery type has the lower ordinal; but with two buffered
entries and a single free register `vgic_v3_sync_hwstate` itself is on the
overflow path and halts before placing the selected entry. -/
theorem tiebreak_selects_lower_ordinal (hypctx : Hypctx) (d : Dist)
    (v1 v2 : VIrq)
    (h1 : vip_schedulable hypctx d hypctx.vgic_cpu_if.ich_vmcr_vpmr v1 = true)
    (h2 : vip_schedulable hypctx d hypctx.vgic_cpu_if.ich_vmcr_vpmr v2 = true)
    (hp : v2.priority = v1.priority)
    (ht : v2.irqtype.ord < v1.irqtype.ord)
    (hbuf : hypctx.vgic_cpu_if.irqbuf = [v1, v2])
    (hover : lr_free_count hypctx.vgic_cpu_if < 2) :
    vgic_v3_highest_priority_pending hypctx.vgic_cpu_if hypctx d = some v2 ∧
    vgic_v3_sync_hwstate hypctx d = none := by
  constructor
  · rw [hpp_two_entries hypctx.vgic_cpu_if hypctx d v1 v2 h1 h2 hbuf,
      if_pos (Or.inr ⟨hp, ht⟩)]
  · have hlen : hypctx.vgic_cpu_if.irqbuf.length = 2 := by rw [hbuf]; rfl
    rw [vgic_v3_sync_hwstate, if_neg (by omega), if_neg (by omega)]

/-- Entry A of the C4 scenario: priority 10, device (VGIC_IRQ_VIRTIO). -/
def entryA : VIrq :=
  { irq := 40, irqtype := Irqtype.virtio, group := 1, enabled := true,
    priority := 10 }

/-- Entry B of the C4 scenario: priority 10, timer-clock (VGIC_IRQ_CLK). -/
def entryB : VIrq :=
  { irq := 41, irqtype := Irqtype.clk, group := 1, enabled := true,
    priority := 10 }

/-- C4 counterexample: the claim's example scenario — buffer {A: priority
10, device; B: priority 10, timer-clock}, one free register — requires
`synchronize()` to place B and leave A buffered; the code instead enters the
overflow path and halts (`panic("reshuffled")`), placing nothing. -/
theorem tiebreak_example_counterexample :
    (mkCpuIf [lr_free] [entryA, entryB]).irqbuf = [entryA, entryB] ∧
    lr_free_count (mkCpuIf [lr_free] [entryA, entryB]) = 1 ∧
    vgic_v3_sync_hwstate (mkHypctx [lr_free] [entryA, entryB]) dist_open
      = none := by
  refine ⟨rfl, by decide, ?_⟩
  rw [vgic_v3_sync_hwstate, if_neg (by decide), if_neg (by decide)]

/-- C4 witness: on the A/B scenario the arbitration function selects B
(timer-clock outranks device at equal priority) while the pass halts. -/
theorem tiebreak_selects_lower_ordinal_witness :
    vgic_v3_highest_priority_pending (mkCpuIf [lr_free] [entryA, entryB])
      (mkHypctx [lr_free] [entryA, entryB]) dist_open = some entryB ∧
    vgic_v3_sync_hwstate (mkHypctx [lr_free] [entryA, entryB]) dist_open
      = none :=
  tiebreak_selects_lower_ordinal (mkHypctx [lr_free] [entryA, entryB])
    dist_open entryA entryB (by decide) (by decide) (by decide) (by decide)
    rfl (by decide)


/-! ## C6: routing -/

/-- C6 (amended): `vgic_v3_int_target` agrees everywhere with the amended
routing predicate: private interrupts always target their owner; everything
targets when affinity routing is disabled; under 1-of-N routing the
participation bit of the interrupt's group decides; otherwise the code
performs the mask-superset test `(irouter & aff) == aff` (not an exact
match). -/
theorem int_target_matches_amended_routing (irq : Nat) (hypctx : Hypctx)
    (d : Dist) :
    vgic_v3_int_target irq hypctx d = int_target_amended irq hypctx d := by
  rw [vgic_v3_int_target, int_target_amended]
  by_cases h31 : irq ≤ GIC_LAST_PPI
  · rw [if_pos h31, if_pos h31]
  · by_cases hare : aff_routing_en d = true
    case neg =>
      rw [if_neg h31, if_neg h31, if_pos (by simpa using hare),
        if_pos (by simpa using hare)]
    case pos =>
      have hnn : ¬¬ aff_routing_en d = true := by simp [hare]
      rw [if_neg h31, if_neg h31, if_neg hnn, if_neg hnn]
      dsimp only
      have hn0 : ¬ (irq / 32 = 0) := by
        have h : GIC_LAST_PPI = 31 := rfl
        rw [h] at h31
        omega
      rw [if_neg hn0]
      have hgrp : vgic_v3_get_int_group irq hypctx d =
          (if d.gicd_igroupr (irq / 32) &&& (1 <<< (irq % 32)) ≠ 0
            then 1 else 0) := by
        rw [vgic_v3_get_int_group, if_neg h31]
      by_cases hirm : d.gicd_irouter irq &&& GICD_IROUTER_IRM ≠ 0
      case pos =>
        rw [if_pos hirm, vcpu_participates, hgrp]
        by_cases hg : d.gicd_igroupr (irq / 32) &&& (1 <<< (irq % 32)) ≠ 0
        · rw [if_pos hg]
          rw [if_neg (by rintro ⟨_, h⟩; cases h), if_pos ⟨hirm, rfl⟩,
            if_neg (by rintro h; cases h)]
        · rw [if_neg hg, if_pos ⟨hirm, rfl⟩, if_pos rfl]
      case neg =>
        rw [if_neg hirm]
        rw [if_neg (fun h => hirm h.1), if_neg (fun h => hirm h.1),
          redist_affinity]

/-- Redistributor with affinity identity 1 (Aff0 = 1), for the C6
counterexample. -/
def redist_aff1 : Redist :=
  { redist_open with gicr_typer := 1 <<< 32 }

/-- Distributor with affinity routing enabled and interrupt 48 routed (no
1-of-N) to affinity value 3. -/
def dist_route3 : Dist :=
  { dist_open with
    gicd_ctlr_are_ns := true,
    gicd_irouter := fun _ => 3 }

def hyp_aff1 : Hypctx :=
  { vgic_redist := redist_aff1, vgic_cpu_if := mkCpuIf [] [] }

/-- C6 counterexample: a vCPU with affinity identity 1 and a shared
interrupt routed to affinity 3 (affinity routing enabled, 1-of-N off).  The
vCPU's affinity (1) does not equal the routing descriptor's affinity (3), so
the claim's exact-match clause answers false, but the code's superset test
`(3 & 1) == 1` answers true. -/
theorem int_target_exact_match_counterexample :
    vgic_v3_int_target 48 hyp_aff1 dist_route3 = true ∧
    int_target_claimed 48 hyp_aff1 dist_route3 = false ∧
    redist_affinity redist_aff1 = 1 ∧
    irouter_affinity (dist_route3.gicd_irouter 48) = 3 := by
  decide

/-! ## C7: set_priority -/

/-- A pending list register holding interrupt 40 at priority 5. -/
def lr40_pending : LR :=
  { vintid := 40, group := 1, prio := 5, state := LRState.pending }

/-- C7: `vgic_v3_irq_set_priority_vcpu(50, 7, ...)` rewrites the priority of
the pending list register even though that register holds interrupt 40, not
50 — the loop over the list registers never compares the vINTID — so a slot
holding a different interrupt ID does not stay unchanged. -/
theorem set_priority_rewrites_unrelated_pending_lr :
    (vgic_v3_irq_set_priority_vcpu 50 7 (mkCpuIf [lr40_pending] [])).ich_lr_el2
      = [{ vintid := 40, group := 1, prio := 7, state := LRState.pending }] ∧
    (mkCpuIf [lr40_pending] []).ich_lr_el2.all (fun lr => lr.vintid != 50)
      = true := by
  decide

/-! ## C8: disabling the virtual timer -/

/-- The timer interrupt (vINTID 27) active in a list register. -/
def lr27_active : LR :=
  { vintid := 27, group := 1, prio := 0, state := LRState.active }

def hyp_c8 : Hypctx :=
  { vgic_redist := redist_open,
    vgic_cpu_if := mkCpuIf [lr27_active] [clk_entry] }

/-- The timer enabled and unmasked (CNTP_CTL_EL0 = ENABLE), with the
deferred callback scheduled. -/
def vt_c8 : VtimerCpu :=
  { cntp_cval_el0 := 0, cntp_ctl_el0 := 1, callout_scheduled := true }

/-- C8: a control-register write of 0 disables the enabled timer, drains the
callback and removes the buffered timer entry — but whether the ACTIVE slot
holding the timer interrupt is cleared depends on the `ignore_state`
argument that the call `vgic_v3_remove_irq(hypctx, irq)` in
`vtimer_remove_irq` fails to supply (its declaration requires three
arguments): with the unspecified flag true the active slot is cleared,
contradicting the claim's "active slots are left in place"; with it false
the claimed behaviour results. -/
theorem vtimer_disable_depends_on_missing_argument :
    (vtimer_phys_ctl_write true hyp_c8 dist_open vt_c8 27 0 0).2 =
      VgicResult.ret 0 { (mkCpuIf [lr27_active] [clk_entry]) with
        ich_lr_el2 := [lr_clear_irq lr27_active], irqbuf := [] } ∧
    (vtimer_phys_ctl_write false hyp_c8 dist_open vt_c8 27 0 0).2 =
      VgicResult.ret 0 { (mkCpuIf [lr27_active] [clk_entry]) with
        ich_lr_el2 := [lr27_active], irqbuf := [] } ∧
    (vtimer_phys_ctl_write true hyp_c8 dist_open vt_c8 27 0 0).1.callout_scheduled
      = false := by
  decide

end VgicV3
